import Mathlib

/-!
# A verification development for the models-dev data-access library

This file embeds the library's decode pipeline (`src/unpack.ts`), the
encoding side of the refresh script (`scripts/update.ts`) and the lookup
façade (`src/index.ts`) into Lean, and proves the specified properties.

Bytes are modelled as natural numbers below 256.  External platform
facilities that the source calls (zlib's `gzipSync`/`gunzipSync`, the
browser's `DecompressionStream`, and `JSON.parse`) are not code of this
repository; they are modelled as components of an abstract `Runtime`
record, constrained only by the contracts the source relies on.  The
base64 codec (`Buffer.from(s, "base64")` / `buf.toString("base64")`,
and `atob`) is implemented concretely, since the encoding contract
base64(gzip(utf8(json))) is part of the specified wire format.
-/

namespace ModelsDev

/-! ## Base64 codec

`scripts/update.ts` produces the embedded payload with
`compressed.toString("base64")` (standard base64 with `=` padding);
`src/unpack.ts` decodes it with `Buffer.from(base64, "base64")` in the
native branch and `atob` in the browser branch.  We implement the
standard base64 alphabet over byte lists. -/

def b64Alphabet : List Char :=
  ['A','B','C','D','E','F','G','H','I','J','K','L','M',
   'N','O','P','Q','R','S','T','U','V','W','X','Y','Z',
   'a','b','c','d','e','f','g','h','i','j','k','l','m',
   'n','o','p','q','r','s','t','u','v','w','x','y','z',
   '0','1','2','3','4','5','6','7','8','9','+','/']

/-- The character encoding a 6-bit group. -/
def b64Char (n : Nat) : Char := b64Alphabet.getD n '?'

/-- The 6-bit value of a base64 character, `none` for a character
outside the alphabet. -/
def b64Index (c : Char) : Option Nat := b64Alphabet.findIdx? (fun d => d = c)

/-- One full 3-byte group encodes to four alphabet characters. -/
def encode3 (a b c : Nat) : List Char :=
  [b64Char (a / 4), b64Char (a % 4 * 16 + b / 16),
   b64Char (b % 16 * 4 + c / 64), b64Char (c % 64)]

/-- Base64 encoding of a byte list, with `=` padding, as produced by
`buf.toString("base64")` in `scripts/update.ts`. -/
def b64Encode : List Nat → List Char
  | [] => []
  | [a] => [b64Char (a / 4), b64Char (a % 4 * 16), '=', '=']
  | [a, b] => [b64Char (a / 4), b64Char (a % 4 * 16 + b / 16),
               b64Char (b % 16 * 4), '=']
  | a :: b :: c :: rest => encode3 a b c ++ b64Encode rest

/-- Base64 decoding of a character list back to bytes; `none` on input
that is not valid base64.  Models `Buffer.from(s, "base64")` / `atob`
in `src/unpack.ts`. -/
def b64Decode : List Char → Option (List Nat)
  | [] => some []
  | c1 :: c2 :: c3 :: c4 :: rest =>
    match b64Index c1, b64Index c2 with
    | some x1, some x2 =>
      if c3 = '=' then
        if c4 = '=' ∧ rest = [] then some [x1 * 4 + x2 / 16] else none
      else
        match b64Index c3 with
        | some x3 =>
          if c4 = '=' then
            if rest = [] then some [x1 * 4 + x2 / 16, x2 % 16 * 16 + x3 / 4]
            else none
          else
            match b64Index c4 with
            | some x4 =>
              match b64Decode rest with
              | some bs =>
                some ((x1 * 4 + x2 / 16) :: (x2 % 16 * 16 + x3 / 4) ::
                      (x3 % 4 * 64 + x4) :: bs)
              | none => none
            | none => none
        | none => none
    | _, _ => none
  | _ => none

theorem b64Index_b64Char {n : Nat} (h : n < 64) : b64Index (b64Char n) = some n := by
  have hall : ∀ m : Fin 64, b64Index (b64Char m.val) = some m.val := by decide
  exact hall ⟨n, h⟩

theorem b64Char_ne_pad {n : Nat} (h : n < 64) : b64Char n ≠ '=' := by
  have hall : ∀ m : Fin 64, b64Char m.val ≠ '=' := by decide
  exact hall ⟨n, h⟩

/-- Decoding inverts encoding on genuine byte lists. -/
theorem b64Decode_b64Encode :
    ∀ bs : List Nat, (∀ b ∈ bs, b < 256) → b64Decode (b64Encode bs) = some bs := by
  intro bs
  induction bs using b64Encode.induct with
  | case1 =>
    intro _; rfl
  | case2 a =>
    intro h
    have ha : a < 256 := h a (by simp)
    have h1 : a / 4 < 64 := by omega
    have h2 : a % 4 * 16 < 64 := by omega
    simp only [b64Encode, b64Decode, b64Index_b64Char h1, b64Index_b64Char h2]
    norm_num
    omega
  | case3 a b =>
    intro h
    have ha : a < 256 := h a (by simp)
    have hb : b < 256 := h b (by simp)
    have h1 : a / 4 < 64 := by omega
    have h2 : a % 4 * 16 + b / 16 < 64 := by omega
    have h3 : b % 16 * 4 < 64 := by omega
    simp only [b64Encode, b64Decode, b64Index_b64Char h1, b64Index_b64Char h2,
      if_neg (b64Char_ne_pad h3), b64Index_b64Char h3]
    norm_num
    omega
  | case4 a b c rest ih =>
    intro h
    have ha : a < 256 := h a (by simp)
    have hb : b < 256 := h b (by simp)
    have hc : c < 256 := h c (by simp)
    have hrest : ∀ x ∈ rest, x < 256 := by
      intro x hx; exact h x (by simp [hx])
    have h1 : a / 4 < 64 := by omega
    have h2 : a % 4 * 16 + b / 16 < 64 := by omega
    have h3 : b % 16 * 4 + c / 64 < 64 := by omega
    have h4 : c % 64 < 64 := by omega
    simp only [b64Encode, encode3, List.cons_append, List.nil_append, b64Decode,
      b64Index_b64Char h1, b64Index_b64Char h2, if_neg (b64Char_ne_pad h3),
      b64Index_b64Char h3, if_neg (b64Char_ne_pad h4), b64Index_b64Char h4,
      List.append_eq, ih hrest]
    norm_num
    omega

/-- Base64 of a byte list as a `String` (the embedded payload text). -/
def b64EncodeStr (bs : List Nat) : String := String.mk (b64Encode bs)

/-- Base64 decoding of a payload string. -/
def b64DecodeStr (s : String) : Option (List Nat) := b64Decode s.data

theorem b64DecodeStr_b64EncodeStr (bs : List Nat) (h : ∀ b ∈ bs, b < 256) :
    b64DecodeStr (b64EncodeStr bs) = some bs :=
  b64Decode_b64Encode bs h

/-! ## Data model (src/types.ts)

JSON objects produced by `JSON.parse` preserve the document's key order
for string keys, so `Record<string, _>` values are embedded as
association lists in that order.  JSON numeric fields are embedded as
rationals (costs) and naturals (token limits); no claim performs
arithmetic on them. -/

inductive InputModality where
  | text | image | audio | video | pdf
deriving DecidableEq

inductive OutputModality where
  | text | image | audio | video
deriving DecidableEq

inductive Status where
  | alpha | deprecated
deriving DecidableEq

structure Cost where
  input : Option Rat := none
  output : Option Rat := none
  cache_read : Option Rat := none
  cache_write : Option Rat := none
  reasoning : Option Rat := none
  input_audio : Option Rat := none
  output_audio : Option Rat := none
  context_over_200k : Option Rat := none
deriving DecidableEq

structure Limit where
  context : Option Nat := none
  input : Option Nat := none
  output : Option Nat := none
deriving DecidableEq

structure Modalities where
  input : List InputModality
  output : List OutputModality
deriving DecidableEq

structure Interleaved where
  field : Option String := none
deriving DecidableEq

structure ModelProvider where
  npm : String
deriving DecidableEq

structure Model where
  id : String
  name : String
  attachment : Bool
  reasoning : Bool
  tool_call : Bool
  open_weights : Bool
  release_date : String
  last_updated : String
  modalities : Modalities
  limit : Limit
  family : Option String := none
  structured_output : Option Bool := none
  temperature : Option Bool := none
  knowledge : Option String := none
  cost : Option Cost := none
  status : Option Status := none
  interleaved : Option (Bool ⊕ Interleaved) := none
  provider : Option ModelProvider := none
deriving DecidableEq

structure Provider where
  id : String
  name : String
  env : List String
  npm : String
  doc : String
  api : Option String := none
  models : List (String × Model)
deriving DecidableEq

/-- The decoded top-level structure: provider id → provider record, in
document (insertion) order. -/
abbrev ProvidersData : Type := List (String × Provider)

/-! ## JavaScript property lookup

`src/index.ts` reads `data[providerId]` and `provider.models[modelId]`
on objects produced by `JSON.parse`.  Such objects inherit from
`Object.prototype`, so indexing with a key that is not an own property
but is a prototype member yields the inherited (truthy) value rather
than `undefined`.  The embedding keeps this distinction. -/

/-- Own-property lookup in document order. -/
def jsLookup (k : String) : List (String × α) → Option α
  | [] => none
  | (k0, v) :: rest => if k0 = k then some v else jsLookup k rest

/-- Property names every `JSON.parse` object inherits from
`Object.prototype`. -/
def objectPrototypeProps : List String :=
  ["constructor", "hasOwnProperty", "isPrototypeOf", "propertyIsEnumerable",
   "toLocaleString", "toString", "valueOf",
   "__defineGetter__", "__defineSetter__", "__lookupGetter__",
   "__lookupSetter__", "__proto__"]

/-- Result of a JavaScript indexing expression `obj[k]`. -/
inductive JsProp (α : Type) where
  | own (value : α)
  | inherited (name : String)
  | undefinedV
deriving DecidableEq

/-- `obj[k]`: the own property when present, else the inherited
`Object.prototype` member, else `undefined`. -/
def jsIndex (m : List (String × α)) (k : String) : JsProp α :=
  match jsLookup k m with
  | some v => .own v
  | none => if k ∈ objectPrototypeProps then .inherited k else .undefinedV

/-- JavaScript truthiness of an indexing result: objects and functions
are truthy, `undefined` is falsy. -/
def JsProp.truthy : JsProp α → Bool
  | .undefinedV => false
  | _ => true

/-! ## Errors

The library throws plain `Error` objects with messages
(`src/index.ts`); failures inside `unpack` surface from the platform
primitives.  The specification classifies every failure of the decode
pipeline as a DecodeError and every failed lookup as a NotFoundError. -/

/-- The stage of the decode pipeline at which `unpack` fails. -/
inductive UnpackFailure where
  | badBase64
  | badGzip
  | badJson
  | noDecompressor
deriving DecidableEq

inductive JsError where
  | decodeError (failure : UnpackFailure)
  | errorMsg (msg : String)
  | typeError (msg : String)
deriving DecidableEq

/-- The specification's DecodeError classification: any failure raised
by the decode pipeline, as opposed to a NotFoundError or a TypeError
from the lookup façade. -/
def JsError.isDecodeError : JsError → Bool
  | .decodeError _ => true
  | _ => false

/-! ## Decoder (src/unpack.ts)

The platform facilities `unpack` calls are not code of this repository:
`gunzipSync(buf).toString("utf-8")` (zlib), `DecompressionStream`
drained through `Response.text()`, and `JSON.parse`.  A `Runtime`
bundles them as abstract functions, plus the two capability flags the
source branches on (`process.versions.node` present;
`DecompressionStream` defined).  The platform base64 decoder
(`Buffer.from(s, "base64")` / `atob`) is modelled as the strict base64
decoder `b64DecodeStr`. -/

structure Runtime (α : Type) where
  isNode : Bool
  hasDecompressionStream : Bool
  gunzipNative : List Nat → Option String
  gunzipStream : List Nat → Option String
  jsonParse : String → Option α

/-- `unpack` from src/unpack.ts: base64-decode, gunzip via the branch
the capability check selects, then `JSON.parse`.  In the browser branch
the source runs `atob` before constructing the `DecompressionStream`,
so a missing decompressor is only reached on well-formed base64. -/
def unpack (rt : Runtime α) (payload : String) : Except JsError α :=
  if rt.isNode then
    match b64DecodeStr payload with
    | none => .error (.decodeError .badBase64)
    | some buffer =>
      match rt.gunzipNative buffer with
      | none => .error (.decodeError .badGzip)
      | some json =>
        match rt.jsonParse json with
        | none => .error (.decodeError .badJson)
        | some v => .ok v
  else
    match b64DecodeStr payload with
    | none => .error (.decodeError .badBase64)
    | some bytes =>
      if rt.hasDecompressionStream then
        match rt.gunzipStream bytes with
        | none => .error (.decodeError .badGzip)
        | some decompressed =>
          match rt.jsonParse decompressed with
          | none => .error (.decodeError .badJson)
          | some v => .ok v
      else .error (.decodeError .noDecompressor)

/-- The gunzip facility the selected branch uses. -/
def Runtime.activeGunzip (rt : Runtime α) : List Nat → Option String :=
  if rt.isNode then rt.gunzipNative else rt.gunzipStream

/-! ## Lookup façade (src/index.ts)

`getProviderInfo` and `getModel` test the indexed value for truthiness
(`if (!provider)`, `if (!model)`), so the pure lookup level keeps the
full `JsProp` result.  When the resolved "provider" is an inherited
prototype member rather than a provider object, `provider.models` is
`undefined` and `undefined[modelId]` throws a TypeError. -/

def getProviderInfoData (data : ProvidersData) (providerId : String) :
    Except JsError (JsProp Provider) :=
  let provider := jsIndex data providerId
  if provider.truthy then .ok provider
  else .error (.errorMsg ("Provider not found: " ++ providerId))

def getModelData (data : ProvidersData) (providerId modelId : String) :
    Except JsError (JsProp Model) :=
  match getProviderInfoData data providerId with
  | .error e => .error e
  | .ok (JsProp.own provider) =>
    let model := jsIndex provider.models modelId
    if model.truthy then .ok model
    else .error (.errorMsg
      ("Model not found: " ++ modelId ++ " in provider " ++ providerId))
  | .ok _ =>
    .error (.typeError
      ("Cannot read properties of undefined (reading " ++ modelId ++ ")"))

/-! ### Memoized state

`src/index.ts` holds `let _data: ProvidersData | null = null`.  The
decode `unpack(DATA)` is a fixed computation per runtime, abstracted as
`dec`; `decodes` counts how often the façade has invoked it. -/

structure LibState (α : Type) where
  data : Option α
  decodes : Nat
deriving DecidableEq

/-- `getData`: decode and cache on first call, return the cache after.
If the decode throws, the assignment `_data = await unpack(DATA)` never
runs, so the cache stays empty. -/
def getDataSt (dec : Except JsError α) (s : LibState α) :
    Except JsError α × LibState α :=
  match s.data with
  | some d => (.ok d, s)
  | none =>
    match dec with
    | .ok d => (.ok d, ⟨some d, s.decodes + 1⟩)
    | .error e => (.error e, ⟨none, s.decodes + 1⟩)

/-- `providers()`: `Object.values(data)` in key order. -/
def providersSt (dec : Except JsError ProvidersData) (s : LibState ProvidersData) :
    Except JsError (List Provider) × LibState ProvidersData :=
  match getDataSt dec s with
  | (.ok data, s1) => (.ok (data.map Prod.snd), s1)
  | (.error e, s1) => (.error e, s1)

/-- `getProviderInfo(providerId)`. -/
def getProviderInfoSt (dec : Except JsError ProvidersData) (providerId : String)
    (s : LibState ProvidersData) :
    Except JsError (JsProp Provider) × LibState ProvidersData :=
  match getDataSt dec s with
  | (.ok data, s1) => (getProviderInfoData data providerId, s1)
  | (.error e, s1) => (.error e, s1)

/-- `getModel(providerId, modelId)`: resolves the provider through
`getProviderInfo` (one `getData` call on this path) and then indexes
its `models`. -/
def getModelSt (dec : Except JsError ProvidersData) (providerId modelId : String)
    (s : LibState ProvidersData) :
    Except JsError (JsProp Model) × LibState ProvidersData :=
  match getDataSt dec s with
  | (.ok data, s1) => (getModelData data providerId modelId, s1)
  | (.error e, s1) => (.error e, s1)

/-! ## Concrete sample snapshot

A small decoded dataset in the shape of the real snapshot (values taken
from the repository's test expectations), used to evaluate the theorems
at concrete inputs. -/

def sampleModel : Model :=
  { id := "gpt-4o"
    name := "GPT-4o"
    attachment := true
    reasoning := false
    tool_call := true
    open_weights := false
    release_date := "2024-05-13"
    last_updated := "2024-11-20"
    modalities := { input := [.text, .image], output := [.text] }
    limit := { context := some 128000, output := some 16384 } }

def sampleProvider : Provider :=
  { id := "openai"
    name := "OpenAI"
    env := ["OPENAI_API_KEY"]
    npm := "@ai-sdk/openai"
    doc := "https://models.dev/openai"
    models := [("gpt-4o", sampleModel)] }

def sampleData : ProvidersData := [("openai", sampleProvider)]

/-! ## Helper lemmas on the pure lookup level -/

theorem getProviderInfoData_own {data : ProvidersData} {pid : String} {p : Provider}
    (h : jsLookup pid data = some p) :
    getProviderInfoData data pid = .ok (.own p) := by
  simp [getProviderInfoData, jsIndex, h, JsProp.truthy]

theorem getProviderInfoData_notFound {data : ProvidersData} {pid : String}
    (h : jsLookup pid data = none) (hp : pid ∉ objectPrototypeProps) :
    getProviderInfoData data pid =
      .error (.errorMsg ("Provider not found: " ++ pid)) := by
  simp [getProviderInfoData, jsIndex, h, hp, JsProp.truthy]

theorem getProviderInfoData_inherited {data : ProvidersData} {pid : String}
    (h : jsLookup pid data = none) (hp : pid ∈ objectPrototypeProps) :
    getProviderInfoData data pid = .ok (.inherited pid) := by
  simp [getProviderInfoData, jsIndex, h, hp, JsProp.truthy]

theorem getModelData_own {data : ProvidersData} {pid mid : String}
    {p : Provider} {m : Model}
    (h : jsLookup pid data = some p) (hm : jsLookup mid p.models = some m) :
    getModelData data pid mid = .ok (.own m) := by
  simp [getModelData, getProviderInfoData_own h, jsIndex, hm, JsProp.truthy]

theorem getModelData_notFound {data : ProvidersData} {pid mid : String} {p : Provider}
    (h : jsLookup pid data = some p) (hm : jsLookup mid p.models = none)
    (hmp : mid ∉ objectPrototypeProps) :
    getModelData data pid mid =
      .error (.errorMsg ("Model not found: " ++ mid ++ " in provider " ++ pid)) := by
  simp [getModelData, getProviderInfoData_own h, jsIndex, hm, hmp, JsProp.truthy]

theorem getModelData_inheritedModel {data : ProvidersData} {pid mid : String} {p : Provider}
    (h : jsLookup pid data = some p) (hm : jsLookup mid p.models = none)
    (hmp : mid ∈ objectPrototypeProps) :
    getModelData data pid mid = .ok (.inherited mid) := by
  simp [getModelData, getProviderInfoData_own h, jsIndex, hm, hmp, JsProp.truthy]

theorem getModelData_providerNotFound {data : ProvidersData} {pid mid : String}
    (h : jsLookup pid data = none) (hp : pid ∉ objectPrototypeProps) :
    getModelData data pid mid =
      .error (.errorMsg ("Provider not found: " ++ pid)) := by
  simp [getModelData, getProviderInfoData_notFound h hp]

theorem getModelData_inheritedProvider {data : ProvidersData} {pid mid : String}
    (h : jsLookup pid data = none) (hp : pid ∈ objectPrototypeProps) :
    getModelData data pid mid =
      .error (.typeError
        ("Cannot read properties of undefined (reading " ++ mid ++ ")")) := by
  simp [getModelData, getProviderInfoData_inherited h hp]

/-- In an association list with distinct keys, membership determines
the lookup. -/
theorem jsLookup_of_mem_nodup {l : List (String × α)}
    (hnd : (l.map Prod.fst).Nodup) {k : String} {v : α} (hm : (k, v) ∈ l) :
    jsLookup k l = some v := by
  induction l with
  | nil => cases hm
  | cons hd tl ih =>
    obtain ⟨k0, v0⟩ := hd
    simp only [List.map_cons, List.nodup_cons] at hnd
    rcases List.mem_cons.mp hm with heq | htl
    · obtain ⟨rfl, rfl⟩ := Prod.mk.injEq .. ▸ heq
      simp [jsLookup]
    · have hk : k0 ≠ k := by
        intro he
        apply hnd.1
        rw [he]
        exact List.mem_map.mpr ⟨(k, v), htl, rfl⟩
      simpa [jsLookup, hk] using ih hnd.2 htl

/-- A cache hit leaves the state untouched and returns the cached
value. -/
theorem getDataSt_cached {dec : Except JsError α} {s : LibState α} {d : α}
    (h : s.data = some d) : getDataSt dec s = (.ok d, s) := by
  unfold getDataSt
  rw [h]

/-- `providers()` on a populated cache. -/
theorem providersSt_cached {dec : Except JsError ProvidersData}
    {s : LibState ProvidersData} {d : ProvidersData} (h : s.data = some d) :
    providersSt dec s = (.ok (d.map Prod.snd), s) := by
  unfold providersSt
  rw [getDataSt_cached h]

/-! ## Claim C1 -/

/-- Claim C1: for every valid payload (a text whose parse succeeds),
`unpack` applied to the refresh-script encoding — base64 of the gzip
compression of the payload — returns exactly the payload's parsed JSON
structure.  The hypotheses say only that the runtime's two gunzip
facilities invert the compression on this payload, which is the
contract of gzip; the conclusion holds for whichever branch the
capability flags select. -/
theorem unpack_encode_roundtrip {α : Type} (rt : Runtime α)
    (compressed : List Nat) (payloadText : String) (j : α)
    (hbytes : ∀ b ∈ compressed, b < 256)
    (hnative : rt.gunzipNative compressed = some payloadText)
    (hstream : rt.gunzipStream compressed = some payloadText)
    (hparse : rt.jsonParse payloadText = some j)
    (hcap : rt.isNode = true ∨ rt.hasDecompressionStream = true) :
    unpack rt (b64EncodeStr compressed) = Except.ok j := by
  unfold unpack
  rw [b64DecodeStr_b64EncodeStr compressed hbytes]
  by_cases hn : rt.isNode = true
  · simp [hn, hnative, hparse]
  · rcases hcap with h | h
    · exact absurd h hn
    · simp [hn, h, hstream, hparse]

/-- A concrete runtime whose gunzip facilities invert one concrete
compression. -/
def rtRoundtrip : Runtime Nat :=
  { isNode := true
    hasDecompressionStream := true
    gunzipNative := fun bs => if bs = [1, 2] then some "{}" else none
    gunzipStream := fun bs => if bs = [1, 2] then some "{}" else none
    jsonParse := fun t => if t = "{}" then some 7 else none }

theorem unpack_encode_roundtrip_witness :
    unpack rtRoundtrip (b64EncodeStr [1, 2]) = Except.ok 7 :=
  unpack_encode_roundtrip rtRoundtrip [1, 2] "{}" 7
    (by decide) (by decide) (by decide) (by decide) (Or.inl rfl)

/-! ## Claim C7 -/

/-- Claim C7: when the runtime is neither a native process environment
nor provides a streaming decompressor, `unpack` fails, and the failure
is a DecodeError (never a NotFoundError or any other kind).  The
browser branch runs `atob` before constructing the decompressor, so on
malformed base64 the DecodeError reports the base64 stage. -/
theorem unpack_no_decompressor_decodeError {α : Type} (rt : Runtime α)
    (payload : String)
    (hn : rt.isNode = false) (hd : rt.hasDecompressionStream = false) :
    ∃ f, unpack rt payload = Except.error (JsError.decodeError f) := by
  cases hb : b64DecodeStr payload with
  | none => exact ⟨.badBase64, by simp [unpack, hn, hb]⟩
  | some bytes => exact ⟨.noDecompressor, by simp [unpack, hn, hb, hd]⟩

/-- A runtime with no decompression capability at all. -/
def rtNoCaps : Runtime Nat :=
  { isNode := false
    hasDecompressionStream := false
    gunzipNative := fun _ => none
    gunzipStream := fun _ => none
    jsonParse := fun _ => none }

theorem unpack_no_decompressor_decodeError_witness :
    ∃ f, unpack rtNoCaps "AAAA" = Except.error (JsError.decodeError f) :=
  unpack_no_decompressor_decodeError rtNoCaps "AAAA" rfl rfl

/-! ## Claim C8 -/

/-- Claim C8: whenever the input is not valid base64, or its decoded
bytes are rejected by the selected gunzip facility, or the decompressed
text is not valid JSON, `unpack` returns an error — a DecodeError, and
never a partial value. -/
theorem unpack_corrupt_input_decodeError {α : Type} (rt : Runtime α)
    (payload : String)
    (hbad : match b64DecodeStr payload with
            | none => True
            | some bytes =>
              match rt.activeGunzip bytes with
              | none => True
              | some text => rt.jsonParse text = none) :
    ∃ f, unpack rt payload = Except.error (JsError.decodeError f) := by
  cases hb : b64DecodeStr payload with
  | none =>
    by_cases hn : rt.isNode = true
    · exact ⟨.badBase64, by simp [unpack, hn, hb]⟩
    · exact ⟨.badBase64, by simp [unpack, hn, hb]⟩
  | some bytes =>
    simp only [hb] at hbad
    by_cases hn : rt.isNode = true
    · have hact : rt.activeGunzip = rt.gunzipNative := by
        simp [Runtime.activeGunzip, hn]
      rw [hact] at hbad
      cases hg : rt.gunzipNative bytes with
      | none => exact ⟨.badGzip, by simp [unpack, hn, hb, hg]⟩
      | some text =>
        simp only [hg] at hbad
        exact ⟨.badJson, by simp [unpack, hn, hb, hg, hbad]⟩
    · by_cases hd : rt.hasDecompressionStream = true
      · have hact : rt.activeGunzip = rt.gunzipStream := by
          simp [Runtime.activeGunzip, hn]
        rw [hact] at hbad
        cases hg : rt.gunzipStream bytes with
        | none => exact ⟨.badGzip, by simp [unpack, hn, hb, hd, hg]⟩
        | some text =>
          simp only [hg] at hbad
          exact ⟨.badJson, by simp [unpack, hn, hb, hd, hg, hbad]⟩
      · exact ⟨.noDecompressor, by simp [unpack, hn, hb, hd]⟩

/-- A runtime whose gunzip succeeds but whose decompressed text fails
to parse as JSON. -/
def rtBadJson : Runtime Nat :=
  { isNode := true
    hasDecompressionStream := false
    gunzipNative := fun _ => some "not json"
    gunzipStream := fun _ => none
    jsonParse := fun _ => none }

theorem unpack_corrupt_input_decodeError_witness :
    ∃ f, unpack rtBadJson "AAAA" = Except.error (JsError.decodeError f) :=
  unpack_corrupt_input_decodeError rtBadJson "AAAA" (by rfl)

/-! ## Claim C4 -/

/-- Claim C4: `getData` is memoized.  Starting from an empty cache
slot, the first call invokes the decoder `unpack rt DATA` (the count
rises by one) and stores its result; the call immediately after
returns the cached value with no further decode (state unchanged).
Consequently two sequential `providers()` calls return equal results
and the decoder has run exactly once. -/
theorem getData_memoized (rt : Runtime ProvidersData) (DATA : String)
    (d : ProvidersData) (s0 : LibState ProvidersData)
    (hdec : unpack rt DATA = Except.ok d) (h0 : s0.data = none) :
    getDataSt (unpack rt DATA) s0 = (Except.ok d, ⟨some d, s0.decodes + 1⟩) ∧
    getDataSt (unpack rt DATA) ⟨some d, s0.decodes + 1⟩ =
      (Except.ok d, ⟨some d, s0.decodes + 1⟩) ∧
    (providersSt (unpack rt DATA) ((providersSt (unpack rt DATA) s0).2)).1 =
      (providersSt (unpack rt DATA) s0).1 ∧
    ((providersSt (unpack rt DATA) ((providersSt (unpack rt DATA) s0).2)).2).decodes =
      s0.decodes + 1 := by
  obtain ⟨c, n⟩ := s0
  simp only at h0
  subst h0
  refine ⟨?_, ?_, ?_, ?_⟩ <;> simp [getDataSt, providersSt, hdec]

/-- A runtime whose decode of the payload "AAAA" yields the sample
snapshot. -/
def rtDecodeOk : Runtime ProvidersData :=
  { isNode := true
    hasDecompressionStream := false
    gunzipNative := fun _ => some "sample"
    gunzipStream := fun _ => none
    jsonParse := fun _ => some sampleData }

theorem getData_memoized_witness :
    getDataSt (unpack rtDecodeOk "AAAA") ⟨none, 0⟩ =
      (Except.ok sampleData, ⟨some sampleData, 0 + 1⟩) ∧
    getDataSt (unpack rtDecodeOk "AAAA") ⟨some sampleData, 0 + 1⟩ =
      (Except.ok sampleData, ⟨some sampleData, 0 + 1⟩) ∧
    (providersSt (unpack rtDecodeOk "AAAA")
        ((providersSt (unpack rtDecodeOk "AAAA") ⟨none, 0⟩).2)).1 =
      (providersSt (unpack rtDecodeOk "AAAA") ⟨none, 0⟩).1 ∧
    ((providersSt (unpack rtDecodeOk "AAAA")
        ((providersSt (unpack rtDecodeOk "AAAA") ⟨none, 0⟩).2)).2).decodes = 0 + 1 :=
  getData_memoized rtDecodeOk "AAAA" sampleData ⟨none, 0⟩ (by rfl) rfl

/-! ## Claim C9 -/

/-- Claim C9: when the decode fails, the error propagates, the cache
slot stays empty (the assignment never runs), and the next call
invokes the decoder again — the invocation count keeps rising. -/
theorem getData_failure_leaves_cache_empty (rt : Runtime ProvidersData)
    (DATA : String) (e : JsError) (s0 : LibState ProvidersData)
    (hdec : unpack rt DATA = Except.error e) (h0 : s0.data = none) :
    getDataSt (unpack rt DATA) s0 = (Except.error e, ⟨none, s0.decodes + 1⟩) ∧
    getDataSt (unpack rt DATA) ⟨none, s0.decodes + 1⟩ =
      (Except.error e, ⟨none, s0.decodes + 2⟩) := by
  obtain ⟨c, n⟩ := s0
  simp only at h0
  subst h0
  constructor <;> simp [getDataSt, hdec]

/-- A runtime whose decode always fails at the JSON stage. -/
def rtDecodeFail : Runtime ProvidersData :=
  { isNode := true
    hasDecompressionStream := false
    gunzipNative := fun _ => some "garbage"
    gunzipStream := fun _ => none
    jsonParse := fun _ => none }

theorem getData_failure_leaves_cache_empty_witness :
    getDataSt (unpack rtDecodeFail "AAAA") ⟨none, 0⟩ =
      (Except.error (JsError.decodeError UnpackFailure.badJson), ⟨none, 0 + 1⟩) ∧
    getDataSt (unpack rtDecodeFail "AAAA") ⟨none, 0 + 1⟩ =
      (Except.error (JsError.decodeError UnpackFailure.badJson), ⟨none, 0 + 2⟩) :=
  getData_failure_leaves_cache_empty rtDecodeFail "AAAA"
    (JsError.decodeError UnpackFailure.badJson) ⟨none, 0⟩ (by rfl) rfl

/-! ## Claim C5 -/

/-- Claim C5: once the data is decoded, `providers()` returns exactly
the values of the decoded `ProvidersData` in its insertion order
(`Object.values`), succeeds, and changes nothing. -/
theorem providers_values_in_order (dec : Except JsError ProvidersData)
    (d : ProvidersData) (s : LibState ProvidersData) (h : s.data = some d) :
    providersSt dec s = (Except.ok (d.map Prod.snd), s) :=
  providersSt_cached h

theorem providers_values_in_order_witness :
    providersSt (Except.ok sampleData) ⟨some sampleData, 1⟩ =
      (Except.ok (sampleData.map Prod.snd), ⟨some sampleData, 1⟩) :=
  providers_values_in_order (Except.ok sampleData) sampleData
    ⟨some sampleData, 1⟩ rfl

/-! ## Claim C6 -/

/-- Claim C6: under the invariant that each provider's `id` equals its
key (and keys are distinct, as they are in a parsed JSON object), every
provider in the sequence `providers()` returns is recovered exactly by
`getProviderInfo(p.id)`. -/
theorem getProviderInfo_of_providers (dec : Except JsError ProvidersData)
    (d : ProvidersData) (s : LibState ProvidersData) (h : s.data = some d)
    (hnd : (d.map Prod.fst).Nodup)
    (hid : ∀ kp ∈ d, (Prod.snd kp).id = Prod.fst kp) :
    ∀ ps, (providersSt dec s).1 = Except.ok ps →
      ∀ p ∈ ps, getProviderInfoSt dec p.id s = (Except.ok (JsProp.own p), s) := by
  intro ps hps p hp
  rw [providersSt_cached h] at hps
  simp only [Except.ok.injEq] at hps
  subst hps
  obtain ⟨⟨k, q⟩, hmem, hsnd⟩ := List.mem_map.mp hp
  simp only at hsnd
  cases hsnd
  have hidp : p.id = k := by simpa using hid (k, p) hmem
  have hlook : jsLookup p.id d = some p := by
    rw [hidp]
    exact jsLookup_of_mem_nodup hnd hmem
  simp [getProviderInfoSt, getDataSt_cached h, getProviderInfoData_own hlook]

theorem getProviderInfo_of_providers_witness :
    getProviderInfoSt (Except.ok sampleData) sampleProvider.id
      ⟨some sampleData, 1⟩ =
      (Except.ok (JsProp.own sampleProvider), ⟨some sampleData, 1⟩) :=
  getProviderInfo_of_providers (Except.ok sampleData) sampleData
    ⟨some sampleData, 1⟩ rfl (by decide) (by decide)
    [sampleProvider] (by rfl) sampleProvider (by simp)

/-! ## Claim C2

The claim as stated is false on the code: the absence check is the
truthiness test `if (!provider)` on `data[providerId]`, and objects
from `JSON.parse` inherit from `Object.prototype`, so an id such as
"toString" that is no key of the data yields the inherited (truthy)
member instead of the NotFoundError the claim requires. -/

/-- Claim C2, counterexample: with the cache holding the sample
snapshot, which has no entry under the key "toString",
`getProviderInfo("toString")` returns the inherited prototype member —
it neither returns a stored Provider nor fails with a NotFoundError. -/
theorem getProviderInfo_exact_match_counterexample :
    jsLookup "toString" sampleData = none ∧
    getProviderInfoSt (Except.ok sampleData) "toString" ⟨some sampleData, 1⟩ =
      (Except.ok (JsProp.inherited "toString"), ⟨some sampleData, 1⟩) :=
  ⟨rfl, rfl⟩

/-- Claim C2 as amended: once the data decodes, `getProviderInfo`
returns the Provider stored under the exact key when such an entry
exists; when no entry exists it fails with NotFoundError
"Provider not found: {id}" — unless the requested id is a property
name inherited from `Object.prototype`, in which case the inherited
value is returned instead. -/
theorem getProviderInfo_amended (data : ProvidersData) (pid : String) :
    (∀ p, jsLookup pid data = some p →
      getProviderInfoData data pid = Except.ok (JsProp.own p)) ∧
    (jsLookup pid data = none → pid ∉ objectPrototypeProps →
      getProviderInfoData data pid =
        Except.error (JsError.errorMsg ("Provider not found: " ++ pid))) ∧
    (jsLookup pid data = none → pid ∈ objectPrototypeProps →
      getProviderInfoData data pid = Except.ok (JsProp.inherited pid)) :=
  ⟨fun _ h => getProviderInfoData_own h,
   fun h hp => getProviderInfoData_notFound h hp,
   fun h hp => getProviderInfoData_inherited h hp⟩

theorem getProviderInfo_amended_witness :
    getProviderInfoData sampleData "openai" =
      Except.ok (JsProp.own sampleProvider) ∧
    getProviderInfoData sampleData "mistral" =
      Except.error (JsError.errorMsg ("Provider not found: " ++ "mistral")) ∧
    getProviderInfoData sampleData "toString" =
      Except.ok (JsProp.inherited "toString") :=
  ⟨(getProviderInfo_amended sampleData "openai").1 sampleProvider (by rfl),
   (getProviderInfo_amended sampleData "mistral").2.1 (by rfl) (by decide),
   (getProviderInfo_amended sampleData "toString").2.2 (by rfl) (by decide)⟩

/-! ## Claim C3

The claim fails on the code for the same reason as C2: the model
absence check is a truthiness test on `provider.models[modelId]`, so a
prototype member name in model position is returned instead of raising
NotFoundError (and in provider position the claim's "propagating its
NotFoundError" breaks too: `provider.models` is `undefined` and
indexing it throws a TypeError). -/

/-- Claim C3, counterexample: provider "openai" exists in the sample
snapshot and has no model under the key "toString", yet
`getModel("openai", "toString")` returns the inherited prototype
member instead of failing with NotFoundError. -/
theorem getModel_exact_match_counterexample :
    jsLookup "openai" sampleData = some sampleProvider ∧
    jsLookup "toString" sampleProvider.models = none ∧
    getModelSt (Except.ok sampleData) "openai" "toString" ⟨some sampleData, 1⟩ =
      (Except.ok (JsProp.inherited "toString"), ⟨some sampleData, 1⟩) :=
  ⟨rfl, rfl, rfl⟩

/-- Claim C3 as amended: `getModel` resolves the provider via
`getProviderInfo` and, when the provider exists, returns the Model
stored under the exact model key; a missing provider id propagates
NotFoundError "Provider not found: {providerId}" and a missing model
id fails with NotFoundError "Model not found: {modelId} in provider
{providerId}" — except for ids that are property names inherited from
`Object.prototype`: such a model id returns the inherited value, and
such a provider id makes the call throw a TypeError instead of
propagating NotFoundError. -/
theorem getModel_amended (data : ProvidersData) (pid mid : String) :
    (jsLookup pid data = none → pid ∉ objectPrototypeProps →
      getModelData data pid mid =
        Except.error (JsError.errorMsg ("Provider not found: " ++ pid))) ∧
    (∀ p m, jsLookup pid data = some p → jsLookup mid p.models = some m →
      getModelData data pid mid = Except.ok (JsProp.own m)) ∧
    (∀ p, jsLookup pid data = some p → jsLookup mid p.models = none →
      mid ∉ objectPrototypeProps →
      getModelData data pid mid =
        Except.error (JsError.errorMsg
          ("Model not found: " ++ mid ++ " in provider " ++ pid))) ∧
    (∀ p, jsLookup pid data = some p → jsLookup mid p.models = none →
      mid ∈ objectPrototypeProps →
      getModelData data pid mid = Except.ok (JsProp.inherited mid)) ∧
    (jsLookup pid data = none → pid ∈ objectPrototypeProps →
      getModelData data pid mid =
        Except.error (JsError.typeError
          ("Cannot read properties of undefined (reading " ++ mid ++ ")"))) :=
  ⟨fun h hp => getModelData_providerNotFound h hp,
   fun _ _ h hm => getModelData_own h hm,
   fun _ h hm hmp => getModelData_notFound h hm hmp,
   fun _ h hm hmp => getModelData_inheritedModel h hm hmp,
   fun h hp => getModelData_inheritedProvider h hp⟩

theorem getModel_amended_witness :
    getModelData sampleData "mistral" "gpt-4o" =
      Except.error (JsError.errorMsg ("Provider not found: " ++ "mistral")) ∧
    getModelData sampleData "openai" "gpt-4o" =
      Except.ok (JsProp.own sampleModel) ∧
    getModelData sampleData "openai" "o3" =
      Except.error (JsError.errorMsg
        ("Model not found: " ++ "o3" ++ " in provider " ++ "openai")) ∧
    getModelData sampleData "openai" "valueOf" =
      Except.ok (JsProp.inherited "valueOf") ∧
    getModelData sampleData "toString" "gpt-4o" =
      Except.error (JsError.typeError
        ("Cannot read properties of undefined (reading " ++ "gpt-4o" ++ ")")) :=
  ⟨(getModel_amended sampleData "mistral" "gpt-4o").1 (by rfl) (by decide),
   (getModel_amended sampleData "openai" "gpt-4o").2.1 sampleProvider sampleModel
     (by rfl) (by rfl),
   (getModel_amended sampleData "openai" "o3").2.2.1 sampleProvider
     (by rfl) (by rfl) (by decide),
   (getModel_amended sampleData "openai" "valueOf").2.2.2.1 sampleProvider
     (by rfl) (by rfl) (by decide),
   (getModel_amended sampleData "toString" "gpt-4o").2.2.2.2 (by rfl) (by decide)⟩

/-! ## Claim C10 -/

/-- Claim C10: the absence checks in `getProviderInfo` and `getModel`
are truthiness tests on the indexed value, not key-membership tests:
for an id that is no key of the map but is a property name inherited
from `Object.prototype` (such as "toString" or "valueOf"), the lookup
returns the inherited non-Provider / non-Model value instead of
failing with a NotFoundError. -/
theorem lookups_are_truthiness_tests (data : ProvidersData)
    (pid pid2 mid : String) (p : Provider)
    (h1 : jsLookup pid data = none) (h2 : pid ∈ objectPrototypeProps)
    (h3 : jsLookup pid2 data = some p)
    (h4 : jsLookup mid p.models = none) (h5 : mid ∈ objectPrototypeProps) :
    getProviderInfoData data pid = Except.ok (JsProp.inherited pid) ∧
    getModelData data pid2 mid = Except.ok (JsProp.inherited mid) :=
  ⟨getProviderInfoData_inherited h1 h2, getModelData_inheritedModel h3 h4 h5⟩

theorem lookups_are_truthiness_tests_witness :
    getProviderInfoData sampleData "toString" =
      Except.ok (JsProp.inherited "toString") ∧
    getModelData sampleData "openai" "valueOf" =
      Except.ok (JsProp.inherited "valueOf") :=
  lookups_are_truthiness_tests sampleData "toString" "openai" "valueOf"
    sampleProvider (by rfl) (by decide) (by rfl) (by rfl) (by decide)

end ModelsDev
